import Mathlib

/-!
Shallow embedding of `src/app/product_fulfillment.py` (class `ProductFulfillment`)
from the connect-processor-template-for-python repository.

Modelling conventions:
* Python exceptions raised by a handler are modelled by the `Outcome` type:
  `ok` (normal return), `skip` (`SkipRequest`, the transient failure),
  `fail` (`FailRequest`, the terminal failure), and `exc` (any other Python
  exception, e.g. `KeyError`, `IndexError`, or the bare `Exception` raised on
  the generic `error` field).
* A vendor API result (a Python dict) is modelled as a record of optional
  fields: `none` means the key is absent (subscripting it raises, modelled as
  `exc`), `some v` means the key is present with value `v`.
* Side effects performed by a handler (vendor API calls, `update_parameters`)
  are collected in an ordered `List Effect` returned next to the outcome, so
  that "no vendor call happened before the failure" is the statement that the
  effect list contains no vendor call.
* External collaborators that are not part of the dispatched code
  (vendor gateway, template lookup, current time, the stored subscription id)
  are inputs of the model: the vendor result, the `lookup` function from
  template kind to configured template id, and the `now` timestamp string.
-/

namespace ConnectProcessor

/-- A single entry of a vendor result's `errors` list. The Python code reads
`errorCode` and `errorMessage` with `dict.get`, which yields `None` when the
key is absent, hence both fields are `Option String`. -/
structure VendorError where
  errorCode : Option String
  errorMessage : Option String
deriving DecidableEq, Repr

/-- A vendor API result, a Python dict with the keys the dispatched code
inspects. `none` models an absent key. The `statusCode` field backs the
spec-modelled `Utils.get_status_code` accessor. -/
structure VendorResult where
  tenantId : Option String
  errors : Option (List VendorError)
  error : Option String
  statusCode : String
deriving DecidableEq, Repr

/-- The five vendor gateway operations. -/
inductive VendorOp where
  | create
  | change
  | cancel
  | suspend
  | resume
deriving DecidableEq, Repr

/-- A fulfillment parameter written back to Connect (`connect.models.Param`). -/
structure Param where
  id : String
  value : Option String
deriving DecidableEq, Repr

/-- An observable side effect of a handler, in execution order. -/
inductive Effect where
  | vendorCall : VendorOp → Effect
  | updateParams : String → List Param → Effect
deriving DecidableEq, Repr

/-- The result of running a handler: a normal return, or one of the Python
exceptions the code raises. `skip` is `SkipRequest` (transient failure),
`fail` is `FailRequest` (terminal failure), `exc` is any other exception. -/
inductive Outcome (α : Type) where
  | ok : α → Outcome α
  | skip : Option String → Outcome α
  | fail : Option String → Outcome α
  | exc : Option String → Outcome α
deriving DecidableEq, Repr

/-- Python `str` applied to a message that may be `None`. -/
def pyStr : Option String → String
  | none => "None"
  | some s => s

/-- Modelled from the spec: `Message.Shared.NOT_ALLOWED_DOWNSIZE` lives in
`app/utils/message.py`, which is not under `src/`; Scenario B of the spec fixes
its text as "not allowed downsize". -/
def NOT_ALLOWED_DOWNSIZE : String := "not allowed downsize"

/-- Modelled from the spec: `Message.Shared.ACTIVATING_TEMPLATE_ERROR` lives in
`app/utils/message.py`, which is not under `src/`; modelled as a fixed format
string applied to the detail message, per the spec's "with the exception text
as message". -/
def activatingTemplateError (detail : String) : String :=
  "Error while activating template: " ++ detail

/-- Modelled from the spec: `Message.Shared.EMPTY_ACTIVATION_TILE` lives in
`app/utils/message.py`, which is not under `src/`; modelled as a fixed format
string applied to the marketplace id. -/
def emptyActivationTile (marketplaceId : String) : String :=
  "Activation template is not configured for marketplace " ++ marketplaceId

/-- The `ActivationTemplateResponse` returned on approval. -/
structure ActivationTemplateResponse where
  template_id : String
deriving DecidableEq, Repr

/-- Python's `str.lower` on a single ASCII character: an upper-case letter is
shifted to its lower-case counterpart, every other character is unchanged. -/
def pyLowerChar (c : Char) : Char :=
  if 'A' ≤ c ∧ c ≤ 'Z' then Char.ofNat (c.toNat + 32) else c

/-- Python's `str.lower()`, as used by `_check_update_response` for the
case-insensitive compare against "success", modelled on ASCII code points. -/
def pyLower (s : String) : String := String.mk (s.data.map pyLowerChar)

/-- Modelled from the spec: `Utils.get_status_code` lives in
`app/utils/utils.py`, which is not under `src/`; per the spec it extracts the
explicit status code of a vendor result for a case-insensitive compare against
"success". -/
def get_status_code (r : VendorResult) : String := r.statusCode

/-- A line item of a change request, with the requested and the currently
provisioned quantity. -/
structure Item where
  quantity : Nat
  old_quantity : Nat
deriving DecidableEq, Repr

/-- Modelled from the spec: `Utils.is_downsize_request` lives in
`app/utils/utils.py`, which is not under `src/`; per spec section 4.4 a request
is a downsize iff some line item's requested quantity is strictly less than
its currently provisioned quantity. -/
def is_downsize_request (items : List Item) : Bool :=
  items.any (fun i => i.quantity < i.old_quantity)

/-- `ProductFulfillment.activate_template` (lines 497-511): resolve the
template id configured for `template_type` via `Utils.get_activation_template`
(modelled by the external `lookup` input); raise `SkipRequest` with the
empty-activation-tile message when the resolved id is empty. -/
def activate_template (marketplaceId : String) (lookup : String → String)
    (template_type : String) : Outcome ActivationTemplateResponse :=
  let tid := lookup template_type
  if tid.length = 0 then
    Outcome.skip (some (emptyActivationTile marketplaceId))
  else
    Outcome.ok ⟨tid⟩

/-- The `try/except` block every handler wraps around `activate_template`
(e.g. lines 73-87 of `purchase`): a `SkipRequest` is re-raised unchanged, a
`FailRequest` and any other exception are downgraded to a `SkipRequest`
carrying the activating-template-error message. -/
def templateExceptionHandler (res : Outcome ActivationTemplateResponse) :
    Outcome ActivationTemplateResponse :=
  match res with
  | Outcome.ok a => Outcome.ok a
  | Outcome.skip m => Outcome.skip m
  | Outcome.fail m => Outcome.skip (some (activatingTemplateError (pyStr m)))
  | Outcome.exc m => Outcome.skip (some (activatingTemplateError (pyStr m)))

/-- The response check of `ProductFulfillment._create_subscription`
(lines 108-131): on a truthy `tenantId` persist it as the `subscriptionId`
fulfillment parameter; otherwise inspect `errors[0]` and raise `SkipRequest`
on a missing or `UNKNOWN_ERROR` code, `FailRequest` on any other code.
Subscripting an absent `tenantId` or `errors` key, or an empty `errors` list,
raises a `KeyError`/`IndexError`, modelled as `exc`. -/
def createSubscriptionCheck (reqId : String) (info : VendorResult) :
    List Effect × Outcome VendorResult :=
  match info.tenantId with
  | none => ([], Outcome.exc (some "KeyError: tenantId"))
  | some t =>
    if t ≠ "" then
      ([Effect.updateParams reqId [⟨"subscriptionId", some t⟩]], Outcome.ok info)
    else
      match info.errors with
      | none => ([], Outcome.exc (some "KeyError: errors"))
      | some [] => ([], Outcome.exc (some "IndexError: list index out of range"))
      | some (e :: _) =>
        if e.errorCode = none ∨ e.errorCode = some "UNKNOWN_ERROR" then
          ([], Outcome.skip e.errorMessage)
        else
          ([], Outcome.fail e.errorMessage)

/-- `ProductFulfillment._create_subscription` (lines 91-137): performs the
create-subscription vendor call (whose result `info` is an external input) and
then the response check. The surrounding `except FailRequest: raise` is the
identity on outcomes. -/
def create_subscription (reqId : String) (info : VendorResult) :
    List Effect × Outcome VendorResult :=
  let p := createSubscriptionCheck reqId info
  (Effect.vendorCall VendorOp.create :: p.1, p.2)

/-- `ProductFulfillment.purchase` (lines 54-87): create the subscription, and
when that returned normally, resolve the `activationTemplate` artifact with
every resolution failure downgraded by `templateExceptionHandler`. -/
def purchase (reqId marketplaceId : String) (info : VendorResult)
    (lookup : String → String) :
    List Effect × Outcome ActivationTemplateResponse :=
  let p := create_subscription reqId info
  match p.2 with
  | Outcome.ok _ =>
    (p.1, templateExceptionHandler (activate_template marketplaceId lookup "activationTemplate"))
  | Outcome.skip m => (p.1, Outcome.skip m)
  | Outcome.fail m => (p.1, Outcome.fail m)
  | Outcome.exc m => (p.1, Outcome.exc m)

/-- `ProductFulfillment._check_update_response` (lines 252-279): on a status
code equal to "success" case-insensitively, persist `creationDate = now`;
otherwise classify `errors[0]` like the create check; with no `errors` key but
an `error` key, raise a bare `Exception` with that raw message (`exc`); with
neither key, return normally. -/
def check_update_response (reqId : String) (r : VendorResult) (now : String) :
    List Effect × Outcome Unit :=
  if pyLower (get_status_code r) = "success" then
    ([Effect.updateParams reqId [⟨"creationDate", some now⟩]], Outcome.ok ())
  else
    match r.errors with
    | some [] => ([], Outcome.exc (some "IndexError: list index out of range"))
    | some (e :: _) =>
      if e.errorCode = none ∨ e.errorCode = some "UNKNOWN_ERROR" then
        ([], Outcome.skip e.errorMessage)
      else
        ([], Outcome.fail e.errorMessage)
    | none =>
      match r.error with
      | some msg => ([], Outcome.exc (some msg))
      | none => ([], Outcome.ok ())

/-- `ProductFulfillment._change_subscription` (lines 222-249): performs the
change-subscription vendor call (result `r` is an external input) and checks
the response. The `except FailRequest: raise` is the identity on outcomes. -/
def change_subscription (reqId : String) (r : VendorResult) (now : String) :
    List Effect × Outcome Unit :=
  let p := check_update_response reqId r now
  (Effect.vendorCall VendorOp.change :: p.1, p.2)

/-- `ProductFulfillment.check_if_downsize` (lines 213-218): raise `FailRequest`
with the fixed not-allowed-downsize message when the items are a downsize. -/
def check_if_downsize (items : List Item) : Outcome Unit :=
  if is_downsize_request items then
    Outcome.fail (some NOT_ALLOWED_DOWNSIZE)
  else
    Outcome.ok ()

/-- `ProductFulfillment.change` (lines 181-210): downsize pre-check, then the
change vendor call and response check, then the `activationTemplate` artifact
with resolution failures downgraded. -/
def change (reqId marketplaceId : String) (items : List Item)
    (r : VendorResult) (now : String) (lookup : String → String) :
    List Effect × Outcome ActivationTemplateResponse :=
  match check_if_downsize items with
  | Outcome.fail m => ([], Outcome.fail m)
  | _ =>
    let p := change_subscription reqId r now
    match p.2 with
    | Outcome.ok _ =>
      (p.1, templateExceptionHandler (activate_template marketplaceId lookup "activationTemplate"))
    | Outcome.skip m => (p.1, Outcome.skip m)
    | Outcome.fail m => (p.1, Outcome.fail m)
    | Outcome.exc m => (p.1, Outcome.exc m)

/-- `ProductFulfillment._cancel_subscription` (lines 312-337): performs the
cancel vendor call and returns its result unchanged — the dispatched code
does not classify the cancel result. -/
def cancel_subscription (r : VendorResult) :
    List Effect × Outcome VendorResult :=
  ([Effect.vendorCall VendorOp.cancel], Outcome.ok r)

/-- `ProductFulfillment.cancel` (lines 284-308): cancel vendor call, then the
`suspendSubscriptionTemplate` artifact with resolution failures downgraded. -/
def cancel (_reqId marketplaceId : String) (r : VendorResult)
    (lookup : String → String) :
    List Effect × Outcome ActivationTemplateResponse :=
  let p := cancel_subscription r
  match p.2 with
  | Outcome.ok _ =>
    (p.1, templateExceptionHandler (activate_template marketplaceId lookup "suspendSubscriptionTemplate"))
  | Outcome.skip m => (p.1, Outcome.skip m)
  | Outcome.fail m => (p.1, Outcome.fail m)
  | Outcome.exc m => (p.1, Outcome.exc m)

/-- `ProductFulfillment._suspend_subscription` (lines 383-409): performs the
suspend vendor call and returns its result unchanged, without classifying. -/
def suspend_subscription (r : VendorResult) :
    List Effect × Outcome VendorResult :=
  ([Effect.vendorCall VendorOp.suspend], Outcome.ok r)

/-- `ProductFulfillment.suspend` (lines 354-379): suspend vendor call, then
the `suspendSubscriptionTemplate` artifact with resolution failures
downgraded. -/
def suspend (_reqId marketplaceId : String) (r : VendorResult)
    (lookup : String → String) :
    List Effect × Outcome ActivationTemplateResponse :=
  let p := suspend_subscription r
  match p.2 with
  | Outcome.ok _ =>
    (p.1, templateExceptionHandler (activate_template marketplaceId lookup "suspendSubscriptionTemplate"))
  | Outcome.skip m => (p.1, Outcome.skip m)
  | Outcome.fail m => (p.1, Outcome.fail m)
  | Outcome.exc m => (p.1, Outcome.exc m)

/-- `ProductFulfillment._resume_subscription` (lines 455-481): performs the
resume vendor call and returns its result unchanged, without classifying. -/
def resume_subscription (r : VendorResult) :
    List Effect × Outcome VendorResult :=
  ([Effect.vendorCall VendorOp.resume], Outcome.ok r)

/-- `ProductFulfillment.resume` (lines 426-451): resume vendor call, then the
`activationTemplate` artifact with resolution failures downgraded. -/
def resume (_reqId marketplaceId : String) (r : VendorResult)
    (lookup : String → String) :
    List Effect × Outcome ActivationTemplateResponse :=
  let p := resume_subscription r
  match p.2 with
  | Outcome.ok _ =>
    (p.1, templateExceptionHandler (activate_template marketplaceId lookup "activationTemplate"))
  | Outcome.skip m => (p.1, Outcome.skip m)
  | Outcome.fail m => (p.1, Outcome.fail m)
  | Outcome.exc m => (p.1, Outcome.exc m)

/-- Lift a handler result into the dispatcher's return type: a handler's
artifact becomes `some` artifact, failures pass through. -/
def liftHandler (p : List Effect × Outcome ActivationTemplateResponse) :
    List Effect × Outcome (Option ActivationTemplateResponse) :=
  (p.1,
   match p.2 with
   | Outcome.ok a => Outcome.ok (some a)
   | Outcome.skip m => Outcome.skip m
   | Outcome.fail m => Outcome.fail m
   | Outcome.exc m => Outcome.exc m)

/-- `ProductFulfillment.process_request` (lines 18-49): dispatch on the
request type string; an unmatched type falls through every `if` and the
method returns `None` (`Outcome.ok none`) with no handler executed. The
`except SkipRequest`/`except FailRequest` clauses re-raise unchanged and are
the identity on outcomes. -/
def process_request (rtype reqId marketplaceId : String) (items : List Item)
    (vres : VendorResult) (now : String) (lookup : String → String) :
    List Effect × Outcome (Option ActivationTemplateResponse) :=
  if rtype = "purchase" then
    liftHandler (purchase reqId marketplaceId vres lookup)
  else if rtype = "change" then
    liftHandler (change reqId marketplaceId items vres now lookup)
  else if rtype = "suspend" then
    liftHandler (suspend reqId marketplaceId vres lookup)
  else if rtype = "resume" then
    liftHandler (resume reqId marketplaceId vres lookup)
  else if rtype = "cancel" then
    liftHandler (cancel reqId marketplaceId vres lookup)
  else
    ([], Outcome.ok none)

/-- C1, counterexample: a cancel request whose vendor call returns
`{errors: [{errorCode: "UNKNOWN_ERROR", errorMessage: "timeout"}]}` does not
raise a transient failure carrying "timeout"; the cancel handler never
classifies the vendor result and returns the configured artifact. -/
theorem C1_cancel_counterexample :
    (cancel "PR-0001" "MP-1"
        ⟨none, some [⟨some "UNKNOWN_ERROR", some "timeout"⟩], none, ""⟩
        (fun _ => "TPL-1")).2
      = Outcome.ok ⟨"TPL-1"⟩
    ∧ (cancel "PR-0001" "MP-1"
        ⟨none, some [⟨some "UNKNOWN_ERROR", some "timeout"⟩], none, ""⟩
        (fun _ => "TPL-1")).2
      ≠ Outcome.skip (some "timeout") := by
  exact ⟨rfl, by decide⟩

/-- C1, amended: the cancel handler ignores the vendor result entirely; with a
non-empty configured deactivation template it performs the cancel vendor call
and returns the artifact, whatever errors the vendor result carries. -/
theorem C1_cancel_ignores_vendor_result (reqId marketplaceId : String)
    (r : VendorResult) (lookup : String → String)
    (h : (lookup "suspendSubscriptionTemplate").length ≠ 0) :
    cancel reqId marketplaceId r lookup
      = ([Effect.vendorCall VendorOp.cancel],
         Outcome.ok ⟨lookup "suspendSubscriptionTemplate"⟩) := by
  simp [cancel, cancel_subscription, templateExceptionHandler,
    activate_template, h]

/-- Witness for `C1_cancel_ignores_vendor_result` at a concrete input. -/
theorem C1_cancel_ignores_vendor_result_witness :
    ("TPL-1".length ≠ 0)
    ∧ cancel "PR-0001" "MP-1"
        ⟨none, some [⟨some "UNKNOWN_ERROR", some "timeout"⟩], none, ""⟩
        (fun _ => "TPL-1")
      = ([Effect.vendorCall VendorOp.cancel], Outcome.ok ⟨"TPL-1"⟩) :=
  ⟨by decide,
   C1_cancel_ignores_vendor_result "PR-0001" "MP-1"
     ⟨none, some [⟨some "UNKNOWN_ERROR", some "timeout"⟩], none, ""⟩
     (fun _ => "TPL-1") (by decide)⟩

/-- C2, counterexample: a vendor result with no success status, no `errors`
list and a generic `error` field makes the update check raise a bare Python
`Exception` (`exc`), not a `FailRequest` (`fail`). -/
theorem C2_generic_error_counterexample :
    check_update_response "PR-0002" ⟨none, none, some "boom", "HTTP_500"⟩ "NOW"
      = ([], Outcome.exc (some "boom"))
    ∧ check_update_response "PR-0002" ⟨none, none, some "boom", "HTTP_500"⟩ "NOW"
      ≠ ([], Outcome.fail (some "boom")) := by
  exact ⟨rfl, by decide⟩

/-- C2, amended: with no success indicator, no `errors` list and a generic
`error` field, the update check raises a generic unclassified exception
carrying the raw error message, rather than a terminal `FailRequest`. -/
theorem C2_generic_error_raises_exception (reqId now : String)
    (r : VendorResult) (m : String)
    (hs : pyLower (get_status_code r) ≠ "success")
    (he : r.errors = none) (hg : r.error = some m) :
    check_update_response reqId r now = ([], Outcome.exc (some m)) := by
  simp [check_update_response, hs, he, hg]

/-- Witness for `C2_generic_error_raises_exception` at a concrete input. -/
theorem C2_generic_error_raises_exception_witness :
    ((pyLower "HTTP_500" ≠ "success")
      ∧ (⟨none, none, some "boom", "HTTP_500"⟩ : VendorResult).errors = none
      ∧ (⟨none, none, some "boom", "HTTP_500"⟩ : VendorResult).error = some "boom")
    ∧ check_update_response "PR-0002" ⟨none, none, some "boom", "HTTP_500"⟩ "NOW"
      = ([], Outcome.exc (some "boom")) :=
  ⟨⟨by decide, rfl, rfl⟩,
   C2_generic_error_raises_exception "PR-0002" "NOW"
     ⟨none, none, some "boom", "HTTP_500"⟩ "boom" (by decide) rfl rfl⟩

/-- C3: a vendor result with no success indicator whose first `errors` entry
has no `errorCode` or code "UNKNOWN_ERROR" is classified as a transient
failure (`SkipRequest`) carrying that entry's `errorMessage`, both in the
purchase (create) check and in the change (update) check. -/
theorem C3_unknown_error_is_transient (reqId now : String)
    (info r : VendorResult) (e : VendorError) (tl tl' : List VendorError)
    (h1 : info.tenantId = some "")
    (h2 : info.errors = some (e :: tl))
    (hs : pyLower (get_status_code r) ≠ "success")
    (h4 : r.errors = some (e :: tl'))
    (hc : e.errorCode = none ∨ e.errorCode = some "UNKNOWN_ERROR") :
    (createSubscriptionCheck reqId info).2 = Outcome.skip e.errorMessage
    ∧ (check_update_response reqId r now).2 = Outcome.skip e.errorMessage := by
  constructor
  · simp [createSubscriptionCheck, h1, h2, hc]
  · simp [check_update_response, hs, h4, hc]

/-- Witness for `C3_unknown_error_is_transient` at a concrete input. -/
theorem C3_unknown_error_is_transient_witness :
    ((⟨some "", some [⟨none, some "oops"⟩], none, ""⟩ : VendorResult).tenantId = some ""
      ∧ (⟨some "", some [⟨none, some "oops"⟩], none, ""⟩ : VendorResult).errors
          = some [⟨none, some "oops"⟩]
      ∧ (pyLower "HTTP_500" ≠ "success")
      ∧ (⟨none, some [⟨none, some "oops"⟩], none, "HTTP_500"⟩ : VendorResult).errors
          = some [⟨none, some "oops"⟩]
      ∧ ((⟨none, some "oops"⟩ : VendorError).errorCode = none
          ∨ (⟨none, some "oops"⟩ : VendorError).errorCode = some "UNKNOWN_ERROR"))
    ∧ (createSubscriptionCheck "PR-0003"
          ⟨some "", some [⟨none, some "oops"⟩], none, ""⟩).2
        = Outcome.skip (some "oops")
    ∧ (check_update_response "PR-0003"
          ⟨none, some [⟨none, some "oops"⟩], none, "HTTP_500"⟩ "NOW").2
        = Outcome.skip (some "oops") :=
  ⟨⟨rfl, rfl, by decide, rfl, Or.inl rfl⟩,
   C3_unknown_error_is_transient "PR-0003" "NOW"
     ⟨some "", some [⟨none, some "oops"⟩], none, ""⟩
     ⟨none, some [⟨none, some "oops"⟩], none, "HTTP_500"⟩
     ⟨none, some "oops"⟩ [] [] rfl rfl (by decide) rfl (Or.inl rfl)⟩

/-- C4: a vendor result with no success indicator whose first `errors` entry
has an `errorCode` present and different from "UNKNOWN_ERROR" is classified as
a terminal failure (`FailRequest`) carrying that entry's `errorMessage`, both
in the purchase (create) check and in the change (update) check. -/
theorem C4_known_error_is_terminal (reqId now : String)
    (info r : VendorResult) (e : VendorError) (tl tl' : List VendorError)
    (c : String)
    (h1 : info.tenantId = some "")
    (h2 : info.errors = some (e :: tl))
    (hs : pyLower (get_status_code r) ≠ "success")
    (h4 : r.errors = some (e :: tl'))
    (hc : e.errorCode = some c) (hne : c ≠ "UNKNOWN_ERROR") :
    (createSubscriptionCheck reqId info).2 = Outcome.fail e.errorMessage
    ∧ (check_update_response reqId r now).2 = Outcome.fail e.errorMessage := by
  have hnot : ¬ (e.errorCode = none ∨ e.errorCode = some "UNKNOWN_ERROR") := by
    rintro (h | h) <;> rw [hc] at h
    · exact Option.noConfusion h
    · exact hne (Option.some.inj h)
  constructor
  · simp [createSubscriptionCheck, h1, h2, hnot]
  · simp [check_update_response, hs, h4, hnot]

/-- Witness for `C4_known_error_is_terminal` at a concrete input. -/
theorem C4_known_error_is_terminal_witness :
    ((⟨some "", some [⟨some "INVALID_DATA", some "bad"⟩], none, ""⟩ : VendorResult).tenantId
        = some ""
      ∧ (⟨some "", some [⟨some "INVALID_DATA", some "bad"⟩], none, ""⟩ : VendorResult).errors
          = some [⟨some "INVALID_DATA", some "bad"⟩]
      ∧ (pyLower "HTTP_500" ≠ "success")
      ∧ (⟨none, some [⟨some "INVALID_DATA", some "bad"⟩], none, "HTTP_500"⟩ : VendorResult).errors
          = some [⟨some "INVALID_DATA", some "bad"⟩]
      ∧ (⟨some "INVALID_DATA", some "bad"⟩ : VendorError).errorCode = some "INVALID_DATA"
      ∧ ("INVALID_DATA" ≠ "UNKNOWN_ERROR"))
    ∧ (createSubscriptionCheck "PR-0004"
          ⟨some "", some [⟨some "INVALID_DATA", some "bad"⟩], none, ""⟩).2
        = Outcome.fail (some "bad")
    ∧ (check_update_response "PR-0004"
          ⟨none, some [⟨some "INVALID_DATA", some "bad"⟩], none, "HTTP_500"⟩ "NOW").2
        = Outcome.fail (some "bad") :=
  ⟨⟨rfl, rfl, by decide, rfl, rfl, by decide⟩,
   C4_known_error_is_terminal "PR-0004" "NOW"
     ⟨some "", some [⟨some "INVALID_DATA", some "bad"⟩], none, ""⟩
     ⟨none, some [⟨some "INVALID_DATA", some "bad"⟩], none, "HTTP_500"⟩
     ⟨some "INVALID_DATA", some "bad"⟩ [] [] "INVALID_DATA"
     rfl rfl (by decide) rfl rfl (by decide)⟩

/-- C5: when the downsize guard reports a downsize, the change handler fails
terminally with the fixed not-allowed-downsize message and its effect list is
empty — in particular no vendor call was made before the failure. -/
theorem C5_downsize_fails_before_vendor_call (reqId marketplaceId now : String)
    (items : List Item) (r : VendorResult) (lookup : String → String)
    (h : is_downsize_request items = true) :
    change reqId marketplaceId items r now lookup
      = ([], Outcome.fail (some NOT_ALLOWED_DOWNSIZE)) := by
  simp [change, check_if_downsize, h]

/-- Witness for `C5_downsize_fails_before_vendor_call` at a concrete input:
one line item whose quantity goes from 5 down to 3. -/
theorem C5_downsize_fails_before_vendor_call_witness :
    (is_downsize_request [⟨3, 5⟩] = true)
    ∧ change "PR-0005" "MP-1" [⟨3, 5⟩] ⟨none, none, none, ""⟩ "NOW"
        (fun _ => "TPL-1")
      = ([], Outcome.fail (some NOT_ALLOWED_DOWNSIZE)) :=
  ⟨by decide,
   C5_downsize_fails_before_vendor_call "PR-0005" "MP-1" "NOW" [⟨3, 5⟩]
     ⟨none, none, none, ""⟩ (fun _ => "TPL-1") (by decide)⟩

/-- C6: after a successful vendor call, every failure of the artifact
resolution step is surfaced as a transient `SkipRequest` with the
corresponding message — a `FailRequest`, any other exception, and the
empty-template-id case alike — and never as a terminal `FailRequest`. -/
theorem C6_template_failures_downgraded
    (res : Outcome ActivationTemplateResponse)
    (marketplaceId : String) (lookup : String → String)
    (hok : ∀ a, res ≠ Outcome.ok a)
    (hE : lookup "activationTemplate" = "") :
    (∃ m, templateExceptionHandler res = Outcome.skip m)
    ∧ (∀ m, templateExceptionHandler res ≠ Outcome.fail m)
    ∧ (∀ m, res = Outcome.skip m →
        templateExceptionHandler res = Outcome.skip m)
    ∧ (∀ m, res = Outcome.fail m →
        templateExceptionHandler res
          = Outcome.skip (some (activatingTemplateError (pyStr m))))
    ∧ (∀ m, res = Outcome.exc m →
        templateExceptionHandler res
          = Outcome.skip (some (activatingTemplateError (pyStr m))))
    ∧ templateExceptionHandler
        (activate_template marketplaceId lookup "activationTemplate")
      = Outcome.skip (some (emptyActivationTile marketplaceId)) := by
  cases res with
  | ok a => exact absurd rfl (hok a)
  | skip m =>
    refine ⟨⟨m, rfl⟩, by simp [templateExceptionHandler], ?_, ?_, ?_, ?_⟩
    · intro m' hm; rw [← hm]; rfl
    · intro m' hm; exact Outcome.noConfusion hm
    · intro m' hm; exact Outcome.noConfusion hm
    · simp [activate_template, hE, templateExceptionHandler]
  | fail m =>
    refine ⟨⟨some (activatingTemplateError (pyStr m)), rfl⟩,
      by simp [templateExceptionHandler], ?_, ?_, ?_, ?_⟩
    · intro m' hm; exact Outcome.noConfusion hm
    · intro m' hm; rw [← Outcome.fail.inj hm]; rfl
    · intro m' hm; exact Outcome.noConfusion hm
    · simp [activate_template, hE, templateExceptionHandler]
  | exc m =>
    refine ⟨⟨some (activatingTemplateError (pyStr m)), rfl⟩,
      by simp [templateExceptionHandler], ?_, ?_, ?_, ?_⟩
    · intro m' hm; exact Outcome.noConfusion hm
    · intro m' hm; exact Outcome.noConfusion hm
    · intro m' hm; rw [← Outcome.exc.inj hm]; rfl
    · simp [activate_template, hE, templateExceptionHandler]

/-- Witness for `C6_template_failures_downgraded` at a concrete input. -/
theorem C6_template_failures_downgraded_witness :
    ((∀ a, (Outcome.fail (some "boom") : Outcome ActivationTemplateResponse)
        ≠ Outcome.ok a)
      ∧ ((fun _ => "") : String → String) "activationTemplate" = "")
    ∧ ((∃ m, templateExceptionHandler
          (Outcome.fail (some "boom") : Outcome ActivationTemplateResponse)
          = Outcome.skip m)
      ∧ (∀ m, templateExceptionHandler
          (Outcome.fail (some "boom") : Outcome ActivationTemplateResponse)
          ≠ Outcome.fail m)) :=
  ⟨⟨fun _ h => Outcome.noConfusion h, rfl⟩,
   And.intro
    (C6_template_failures_downgraded (Outcome.fail (some "boom")) "MP-1"
      (fun _ => "") (fun _ h => Outcome.noConfusion h) rfl).1
    (C6_template_failures_downgraded (Outcome.fail (some "boom")) "MP-1"
      (fun _ => "") (fun _ h => Outcome.noConfusion h) rfl).2.1⟩

/-- C7: a purchase whose create call returns a non-empty `tenantId` performs
the create vendor call, persists the `subscriptionId` fulfillment parameter
equal to that `tenantId` via `update_parameters`, and returns the artifact
resolved for the `activationTemplate` kind. -/
theorem C7_purchase_persists_tenant (reqId marketplaceId : String)
    (info : VendorResult) (t : String) (lookup : String → String)
    (ht : info.tenantId = some t) (hne : t ≠ "")
    (htid : (lookup "activationTemplate").length ≠ 0) :
    purchase reqId marketplaceId info lookup
      = ([Effect.vendorCall VendorOp.create,
          Effect.updateParams reqId [⟨"subscriptionId", some t⟩]],
         Outcome.ok ⟨lookup "activationTemplate"⟩) := by
  simp [purchase, create_subscription, createSubscriptionCheck, ht, hne,
    templateExceptionHandler, activate_template, htid]

/-- Witness for `C7_purchase_persists_tenant` at the spec's Scenario A input:
the vendor returns `{tenantId: "T1"}`. -/
theorem C7_purchase_persists_tenant_witness :
    ((⟨some "T1", none, none, ""⟩ : VendorResult).tenantId = some "T1"
      ∧ ("T1" ≠ "")
      ∧ ("TPL-1".length ≠ 0))
    ∧ purchase "PR-0007" "MP-1" ⟨some "T1", none, none, ""⟩ (fun _ => "TPL-1")
      = ([Effect.vendorCall VendorOp.create,
          Effect.updateParams "PR-0007" [⟨"subscriptionId", some "T1"⟩]],
         Outcome.ok ⟨"TPL-1"⟩) :=
  ⟨⟨rfl, by decide, by decide⟩,
   C7_purchase_persists_tenant "PR-0007" "MP-1" ⟨some "T1", none, none, ""⟩
     "T1" (fun _ => "TPL-1") rfl (by decide) (by decide)⟩

/-- C8: when the change vendor result's status code compares case-insensitively
equal to "success", the update check persists the `creationDate = now`
freshness marker via `update_parameters` and returns normally, raising no
failure. -/
theorem C8_change_success_persists_creation_date (reqId now : String)
    (r : VendorResult)
    (h : pyLower (get_status_code r) = "success") :
    check_update_response reqId r now
      = ([Effect.updateParams reqId [⟨"creationDate", some now⟩]],
         Outcome.ok ()) := by
  simp [check_update_response, h]

/-- Witness for `C8_change_success_persists_creation_date` at a concrete
input with a mixed-case "Success" status code. -/
theorem C8_change_success_persists_creation_date_witness :
    (pyLower (get_status_code ⟨none, none, none, "Success"⟩) = "success")
    ∧ check_update_response "PR-0008" ⟨none, none, none, "Success"⟩ "NOW"
      = ([Effect.updateParams "PR-0008" [⟨"creationDate", some "NOW"⟩]],
         Outcome.ok ()) :=
  ⟨by decide,
   C8_change_success_persists_creation_date "PR-0008" "NOW"
     ⟨none, none, none, "Success"⟩ (by decide)⟩

/-- C9: the cancel handler and the suspend handler both resolve the
`suspendSubscriptionTemplate` kind, so for the same marketplace and template
configuration their artifact outcomes are identical, whatever each vendor
call returned. -/
theorem C9_cancel_suspend_same_template (reqId reqId' marketplaceId : String)
    (r r' : VendorResult) (lookup : String → String) :
    (cancel reqId marketplaceId r lookup).2
      = templateExceptionHandler
          (activate_template marketplaceId lookup "suspendSubscriptionTemplate")
    ∧ (suspend reqId' marketplaceId r' lookup).2
      = templateExceptionHandler
          (activate_template marketplaceId lookup "suspendSubscriptionTemplate")
    ∧ (cancel reqId marketplaceId r lookup).2
      = (suspend reqId' marketplaceId r' lookup).2 :=
  ⟨rfl, rfl, rfl⟩

/-- C10: a request whose type is none of the five lifecycle kinds falls
through the dispatcher: no handler runs, no effect is produced, and the
dispatcher returns Python `None` without raising any failure. -/
theorem C10_unknown_type_returns_none (rtype reqId marketplaceId now : String)
    (items : List Item) (vres : VendorResult) (lookup : String → String)
    (h1 : rtype ≠ "purchase") (h2 : rtype ≠ "change")
    (h3 : rtype ≠ "suspend") (h4 : rtype ≠ "resume")
    (h5 : rtype ≠ "cancel") :
    process_request rtype reqId marketplaceId items vres now lookup
      = ([], Outcome.ok none) := by
  simp [process_request, h1, h2, h3, h4, h5]

/-- Witness for `C10_unknown_type_returns_none` at a concrete unknown type. -/
theorem C10_unknown_type_returns_none_witness :
    (("adjustment" ≠ "purchase") ∧ ("adjustment" ≠ "change")
      ∧ ("adjustment" ≠ "suspend") ∧ ("adjustment" ≠ "resume")
      ∧ ("adjustment" ≠ "cancel"))
    ∧ process_request "adjustment" "PR-0010" "MP-1" [] ⟨none, none, none, ""⟩
        "NOW" (fun _ => "TPL-1")
      = ([], Outcome.ok none) :=
  ⟨⟨by decide, by decide, by decide, by decide, by decide⟩,
   C10_unknown_type_returns_none "adjustment" "PR-0010" "MP-1" "NOW" []
     ⟨none, none, none, ""⟩ (fun _ => "TPL-1")
     (by decide) (by decide) (by decide) (by decide) (by decide)⟩

end ConnectProcessor
